import Mathlib

/-!
Verification of the PDF annotation/signing tool (client coordinate mapper,
server/client image-fit compositing, upload deduplication, multi-sign loop).

Embedding conventions:
* JavaScript numbers are idealized as exact rationals extended with the
  non-finite values NaN, plus-infinity and minus-infinity (type XNum below);
  IEEE rounding of individual double operations is ignored, the minus-zero
  value is identified with zero.
* A JavaScript value that may arrive in a request or DOM field is modelled by
  JSVal: a finite number, NaN, an infinity, undefined (also covering null and
  an absent field), or a truthy value whose Number() conversion is NaN (for
  example a non-numeric string such as "abc", written badstr below).
* File system and database effects of the server handlers are modelled by
  explicit state records; SHA-256 digests are abstracted as strings, and the
  byte-level work delegated to the pdf-lib library (loading pages, drawing,
  serializing) is modelled by the page-index lookup and the list of issued
  draw operations.
-/

/-- A JavaScript number idealized: a finite rational, NaN, or an infinity. -/
inductive XNum where
  | fin (q : ℚ)
  | pinf
  | ninf
  | nan
deriving DecidableEq, Repr

/-- A JavaScript value as it may appear in an input field. -/
inductive JSVal where
  | num (q : ℚ)
  | nan
  | pinf
  | ninf
  | undef
  | badstr
deriving DecidableEq, Repr

namespace XNum

/-- JavaScript addition on idealized numbers. -/
def xadd : XNum → XNum → XNum
  | nan, _ => nan
  | _, nan => nan
  | fin a, fin b => fin (a + b)
  | fin _, pinf => pinf
  | fin _, ninf => ninf
  | pinf, fin _ => pinf
  | ninf, fin _ => ninf
  | pinf, pinf => pinf
  | ninf, ninf => ninf
  | pinf, ninf => nan
  | ninf, pinf => nan

/-- JavaScript subtraction on idealized numbers. -/
def xsub : XNum → XNum → XNum
  | nan, _ => nan
  | _, nan => nan
  | fin a, fin b => fin (a - b)
  | fin _, pinf => ninf
  | fin _, ninf => pinf
  | pinf, fin _ => pinf
  | ninf, fin _ => ninf
  | pinf, pinf => nan
  | ninf, ninf => nan
  | pinf, ninf => pinf
  | ninf, pinf => ninf

/-- JavaScript multiplication on idealized numbers (0 times infinity is NaN). -/
def xmul : XNum → XNum → XNum
  | nan, _ => nan
  | _, nan => nan
  | fin a, fin b => fin (a * b)
  | fin a, pinf => if 0 < a then pinf else if a < 0 then ninf else nan
  | fin a, ninf => if 0 < a then ninf else if a < 0 then pinf else nan
  | pinf, fin b => if 0 < b then pinf else if b < 0 then ninf else nan
  | ninf, fin b => if 0 < b then ninf else if b < 0 then pinf else nan
  | pinf, pinf => pinf
  | ninf, ninf => pinf
  | pinf, ninf => ninf
  | ninf, pinf => ninf

/-- JavaScript division on idealized numbers; division of a nonzero finite
number by zero gives a signed infinity, 0/0 gives NaN (zero is treated as
plus-zero). -/
def xdiv : XNum → XNum → XNum
  | nan, _ => nan
  | _, nan => nan
  | fin a, fin b =>
      if b = 0 then (if 0 < a then pinf else if a < 0 then ninf else nan)
      else fin (a / b)
  | fin _, pinf => fin 0
  | fin _, ninf => fin 0
  | pinf, fin b => if 0 ≤ b then pinf else ninf
  | ninf, fin b => if 0 ≤ b then ninf else pinf
  | pinf, pinf => nan
  | pinf, ninf => nan
  | ninf, pinf => nan
  | ninf, ninf => nan

/-- JavaScript strict greater-than; any comparison involving NaN is false. -/
def xgt : XNum → XNum → Bool
  | nan, _ => false
  | _, nan => false
  | fin a, fin b => decide (b < a)
  | fin _, pinf => false
  | fin _, ninf => true
  | pinf, pinf => false
  | pinf, _ => true
  | ninf, _ => false

/-- The finite value of an idealized number, 0 when non-finite; this models
the expression isFinite(v) ? v : 0. -/
def finOr0 : XNum → ℚ
  | fin q => q
  | _ => 0

end XNum

/-- Number(v || 0): the coercion applied to the four pixel-box fields in
cssBoxToPdfPoints.  NaN, undefined and 0 are falsy and become 0; a truthy
non-numeric value converts to NaN; infinities pass through. -/
def toNum0 : JSVal → XNum
  | JSVal.num q => XNum.fin q
  | JSVal.nan => XNum.fin 0
  | JSVal.pinf => XNum.pinf
  | JSVal.ninf => XNum.ninf
  | JSVal.undef => XNum.fin 0
  | JSVal.badstr => XNum.nan

/-- Number(v || 1): the coercion applied to the size fields in
cssBoxToPdfPoints.  NaN, undefined and 0 are falsy and become 1; a truthy
non-numeric value converts to NaN; infinities pass through. -/
def toNum1 : JSVal → XNum
  | JSVal.num q => if q = 0 then XNum.fin 1 else XNum.fin q
  | JSVal.nan => XNum.fin 1
  | JSVal.pinf => XNum.pinf
  | JSVal.ninf => XNum.ninf
  | JSVal.undef => XNum.fin 1
  | JSVal.badstr => XNum.nan

/-- The two-step size coercion of cssBoxToPdfPoints, for example
const rW = Number(renderedSize.width || 1); const safeRW = rW > 0 ? rW : 1. -/
def safeDim (v : JSVal) : XNum :=
  let n := toNum1 v
  if XNum.xgt n (XNum.fin 0) then n else XNum.fin 1

/-- Math.min on two finite rationals. -/
def mathMin (a b : ℚ) : ℚ :=
  if a ≤ b then a else b

/-- Math.max on two finite rationals. -/
def mathMax (a b : ℚ) : ℚ :=
  if a ≤ b then b else a

/-- Math.round on a finite rational: the JavaScript rounding rule is round
half toward positive infinity, that is the floor of q + 1/2. -/
def jsRound (q : ℚ) : ℤ :=
  ⌊q + 1/2⌋

/-- clamp01 from client/src/lib/Coord.js:
Math.max(0, Math.min(1, isFinite(v) ? v : 0)). -/
def clamp01 (v : XNum) : ℚ :=
  mathMax 0 (mathMin 1 v.finOr0)

/-- Rounding to 2 decimals on a finite rational:
Math.round(v * 100) / 100. -/
def rndQ (q : ℚ) : ℚ :=
  ((jsRound (q * 100) : ℤ) : ℚ) / 100

/-- function rnd(v) { return Math.round(v * 100) / 100; } — Math.round maps
NaN to NaN and each infinity to itself. -/
def rnd : XNum → XNum
  | XNum.fin q => XNum.fin (rndQ q)
  | v => v

/-- Number(f.toFixed(6)): rounding of a fraction to 6 decimal places (for
values in the unit interval toFixed rounds half away from zero, which agrees
with rounding half up). -/
def rnd6 (q : ℚ) : ℚ :=
  ((jsRound (q * 1000000) : ℤ) : ℚ) / 1000000

/-- The cssBox argument of cssBoxToPdfPoints (pixel box, top-left origin). -/
structure JSBox where
  left : JSVal
  top : JSVal
  width : JSVal
  height : JSVal
deriving DecidableEq, Repr

/-- A width/height pair argument (renderedSize or pageSizePoints). -/
structure JSSize where
  width : JSVal
  height : JSVal
deriving DecidableEq, Repr

/-- The pdfBox component of the result (PDF points, bottom-left origin). -/
structure PdfBox where
  x : XNum
  y : XNum
  width : XNum
  height : XNum
deriving DecidableEq, Repr

/-- The fractions component of the result, each rounded to 6 decimals. -/
structure Fractions where
  x_frac : ℚ
  y_frac : ℚ
  w_frac : ℚ
  h_frac : ℚ
deriving DecidableEq, Repr

/-- The value returned by cssBoxToPdfPoints. -/
structure MapResult where
  pdfBox : PdfBox
  fractions : Fractions
deriving DecidableEq, Repr

/-- cssBoxToPdfPoints from client/src/lib/Coord.js, line by line. -/
def cssBoxToPdfPoints (cssBox : JSBox) (renderedSize pageSizePoints : JSSize) :
    MapResult :=
  let left := toNum0 cssBox.left
  let top := toNum0 cssBox.top
  let widthPx := toNum0 cssBox.width
  let heightPx := toNum0 cssBox.height
  let safeRW := safeDim renderedSize.width
  let safeRH := safeDim renderedSize.height
  let safePW := safeDim pageSizePoints.width
  let safePH := safeDim pageSizePoints.height
  let x_frac := clamp01 (XNum.xdiv left safeRW)
  let y_frac := clamp01 (XNum.xdiv top safeRH)
  let w_frac := clamp01 (XNum.xdiv widthPx safeRW)
  let h_frac := clamp01 (XNum.xdiv heightPx safeRH)
  let x_pts := XNum.xmul (XNum.fin x_frac) safePW
  let width_pts := XNum.xmul (XNum.fin w_frac) safePW
  let bottomPx := XNum.xsub (XNum.xsub safeRH top) heightPx
  let y_frac_from_bottom := clamp01 (XNum.xdiv bottomPx safeRH)
  let y_pts := XNum.xmul (XNum.fin y_frac_from_bottom) safePH
  let height_pts := XNum.xmul (XNum.fin h_frac) safePH
  { pdfBox :=
      { x := rnd x_pts
        y := rnd y_pts
        width := rnd width_pts
        height := rnd height_pts }
    fractions :=
      { x_frac := rnd6 x_frac
        y_frac := rnd6 y_frac
        w_frac := rnd6 w_frac
        h_frac := rnd6 h_frac } }


/-! ### Basic numeric lemmas for the rounding and clamping primitives -/

theorem mathMin_eq_min (a b : ℚ) : mathMin a b = min a b :=
  (min_def a b).symm

theorem mathMax_eq_max (a b : ℚ) : mathMax a b = max a b :=
  (max_def a b).symm

theorem clamp01_nonneg (v : XNum) : 0 ≤ clamp01 v := by
  rw [clamp01, mathMax_eq_max]
  exact le_max_left 0 _

theorem clamp01_le_one (v : XNum) : clamp01 v ≤ 1 := by
  rw [clamp01, mathMax_eq_max, mathMin_eq_min]
  exact max_le (by norm_num) (min_le_left 1 _)

theorem clamp01_fin_of_mem (q : ℚ) (h0 : 0 ≤ q) (h1 : q ≤ 1) :
    clamp01 (XNum.fin q) = q := by
  rw [clamp01, mathMax_eq_max, mathMin_eq_min]
  show max 0 (min 1 q) = q
  rw [min_eq_right h1, max_eq_right h0]

theorem clamp01_nonfin (v : XNum) (h : ∀ q : ℚ, v ≠ XNum.fin q) :
    clamp01 v = 0 := by
  cases v with
  | fin q => exact absurd rfl (h q)
  | pinf => rfl
  | ninf => rfl
  | nan => rfl

theorem clamp01_fin_lipschitz (a b : ℚ) :
    |clamp01 (XNum.fin a) - clamp01 (XNum.fin b)| ≤ |a - b| := by
  have h1 : |clamp01 (XNum.fin a) - clamp01 (XNum.fin b)| ≤ |min 1 a - min 1 b| := by
    rw [clamp01, clamp01, mathMax_eq_max, mathMax_eq_max, mathMin_eq_min,
      mathMin_eq_min]
    show |max 0 (min 1 a) - max 0 (min 1 b)| ≤ _
    rw [max_comm 0 (min 1 a), max_comm 0 (min 1 b)]
    exact abs_max_sub_max_le_abs _ _ _
  have h2 : |min 1 a - min 1 b| ≤ max |1 - 1| |a - b| := abs_min_sub_min_le_max 1 a 1 b
  have h3 : max |(1:ℚ) - 1| |a - b| = |a - b| := by
    rw [sub_self, abs_zero]
    exact max_eq_right (abs_nonneg _)
  calc |clamp01 (XNum.fin a) - clamp01 (XNum.fin b)|
      ≤ |min 1 a - min 1 b| := h1
    _ ≤ max |(1:ℚ) - 1| |a - b| := h2
    _ = |a - b| := h3

theorem jsRound_le (q : ℚ) : (jsRound q : ℚ) ≤ q + 1/2 :=
  Int.floor_le _

theorem jsRound_gt (q : ℚ) : q - 1/2 < (jsRound q : ℚ) := by
  have h := Int.sub_one_lt_floor (q + 1/2)
  rw [jsRound]
  push_cast at h ⊢
  linarith

theorem rndQ_nonneg (q : ℚ) (h : 0 ≤ q) : 0 ≤ rndQ q := by
  have h1 := jsRound_gt (q * 100)
  have h2 : (-1 : ℚ) < (jsRound (q * 100) : ℚ) := by nlinarith
  have h3 : (-1 : ℤ) < jsRound (q * 100) := by exact_mod_cast h2
  have h4 : (0 : ℚ) ≤ (jsRound (q * 100) : ℚ) := by
    have : (0 : ℤ) ≤ jsRound (q * 100) := by omega
    exact_mod_cast this
  rw [rndQ]
  positivity

theorem rndQ_le_add (q M : ℚ) (h : q ≤ M) : rndQ q ≤ M + 1/200 := by
  have h1 := jsRound_le (q * 100)
  rw [rndQ]
  linarith

theorem rndQ_close (a b δ : ℚ) (h : |a - b| ≤ δ) :
    |rndQ a - rndQ b| ≤ δ + 1/100 := by
  rw [abs_le] at h
  have ha1 := jsRound_le (a * 100)
  have ha2 := jsRound_gt (a * 100)
  have hb1 := jsRound_le (b * 100)
  have hb2 := jsRound_gt (b * 100)
  rw [rndQ, rndQ, abs_le]
  constructor
  · linarith
  · linarith

theorem rnd6_close (q : ℚ) : |rnd6 q - q| ≤ 1/2000000 := by
  have h1 := jsRound_le (q * 1000000)
  have h2 := jsRound_gt (q * 1000000)
  rw [rnd6, abs_le]
  constructor
  · linarith
  · linarith

theorem rnd6_nonneg (q : ℚ) (h : 0 ≤ q) : 0 ≤ rnd6 q := by
  have h1 := jsRound_gt (q * 1000000)
  have h2 : (-1 : ℚ) < (jsRound (q * 1000000) : ℚ) := by nlinarith
  have h3 : (-1 : ℤ) < jsRound (q * 1000000) := by exact_mod_cast h2
  have h4 : (0 : ℚ) ≤ (jsRound (q * 1000000) : ℚ) := by
    have : (0 : ℤ) ≤ jsRound (q * 1000000) := by omega
    exact_mod_cast this
  rw [rnd6]
  positivity

theorem rnd6_le_one (q : ℚ) (h : q ≤ 1) : rnd6 q ≤ 1 := by
  have h1 := jsRound_le (q * 1000000)
  have h2 : (jsRound (q * 1000000) : ℚ) < 1000000 + 1 := by nlinarith
  have h3 : jsRound (q * 1000000) < 1000000 + 1 := by exact_mod_cast h2
  have h4 : (jsRound (q * 1000000) : ℚ) ≤ 1000000 := by
    have : jsRound (q * 1000000) ≤ 1000000 := by omega
    exact_mod_cast this
  rw [rnd6, div_le_one (by norm_num : (0:ℚ) < 1000000)]
  exact h4

/-! ### Evaluation of the mapper at numeric positive sizes -/

theorem safeDim_pos (q : ℚ) (h : 0 < q) : safeDim (JSVal.num q) = XNum.fin q := by
  simp [safeDim, toNum1, XNum.xgt, h.ne', h]

theorem map_pos_sizes (cssBox : JSBox) (rw rh pw ph : ℚ)
    (hrw : 0 < rw) (hrh : 0 < rh) (hpw : 0 < pw) (hph : 0 < ph) :
    cssBoxToPdfPoints cssBox ⟨JSVal.num rw, JSVal.num rh⟩
      ⟨JSVal.num pw, JSVal.num ph⟩ =
    { pdfBox :=
        { x := XNum.fin (rndQ (clamp01 (XNum.xdiv (toNum0 cssBox.left)
                  (XNum.fin rw)) * pw))
          y := XNum.fin (rndQ (clamp01 (XNum.xdiv (XNum.xsub
                  (XNum.xsub (XNum.fin rh) (toNum0 cssBox.top))
                  (toNum0 cssBox.height)) (XNum.fin rh)) * ph))
          width := XNum.fin (rndQ (clamp01 (XNum.xdiv (toNum0 cssBox.width)
                  (XNum.fin rw)) * pw))
          height := XNum.fin (rndQ (clamp01 (XNum.xdiv (toNum0 cssBox.height)
                  (XNum.fin rh)) * ph)) }
      fractions :=
        { x_frac := rnd6 (clamp01 (XNum.xdiv (toNum0 cssBox.left) (XNum.fin rw)))
          y_frac := rnd6 (clamp01 (XNum.xdiv (toNum0 cssBox.top) (XNum.fin rh)))
          w_frac := rnd6 (clamp01 (XNum.xdiv (toNum0 cssBox.width) (XNum.fin rw)))
          h_frac := rnd6 (clamp01 (XNum.xdiv (toNum0 cssBox.height) (XNum.fin rh))) } } := by
  have hW := safeDim_pos rw hrw
  have hH := safeDim_pos rh hrh
  have hPW := safeDim_pos pw hpw
  have hPH := safeDim_pos ph hph
  simp only [cssBoxToPdfPoints, hW, hH, hPW, hPH, XNum.xmul, rnd]

/-! ### The image-fit compositor

The aspect-ratio preserving placement appears verbatim four times in the
repository: in the /api/sign-pdf handler and the loop body of the
/api/sign-pdf-multi handler in server/server.js, in signPdfHandler in
server/controllers/signController.js, and in burnInLocallyMultiple in
client/src/components/PdfEditor.jsx.  All four read:
  imgRatio = imgW / imgH; boxRatio = boxW / boxH;
  if (imgRatio > boxRatio) { drawW = boxW; drawH = boxW / imgRatio; }
  else { drawH = boxH; drawW = boxH * imgRatio; }
  offsetX = x + (boxW - drawW) / 2; offsetY = y + (boxH - drawH) / 2;
-/

/-- The intrinsic pixel size of the embedded signature image. -/
structure ImageSize where
  width : ℚ
  height : ℚ
deriving DecidableEq, Repr

/-- The target point-space box a signature is drawn into (the pdfBox taken
from the request). -/
structure TargetBox where
  x : ℚ
  y : ℚ
  width : ℚ
  height : ℚ
deriving DecidableEq, Repr

/-- The rectangle passed to page.drawImage; fields may be non-finite because
the computation performs unguarded divisions. -/
structure FitRect where
  x : XNum
  y : XNum
  width : XNum
  height : XNum
deriving DecidableEq, Repr

/-- The shared fit computation, translated operation by operation with
JavaScript division, multiplication and comparison semantics. -/
def fit (img : ImageSize) (box : TargetBox) : FitRect :=
  let imgRatio := XNum.xdiv (XNum.fin img.width) (XNum.fin img.height)
  let boxRatio := XNum.xdiv (XNum.fin box.width) (XNum.fin box.height)
  let drawW := if XNum.xgt imgRatio boxRatio then XNum.fin box.width
               else XNum.xmul (XNum.fin box.height) imgRatio
  let drawH := if XNum.xgt imgRatio boxRatio then
                 XNum.xdiv (XNum.fin box.width) imgRatio
               else XNum.fin box.height
  let offsetX := XNum.xadd (XNum.fin box.x)
    (XNum.xdiv (XNum.xsub (XNum.fin box.width) drawW) (XNum.fin 2))
  let offsetY := XNum.xadd (XNum.fin box.y)
    (XNum.xdiv (XNum.xsub (XNum.fin box.height) drawH) (XNum.fin 2))
  ⟨offsetX, offsetY, drawW, drawH⟩

/-- Reduction of the ratio division at a nonzero image height. -/
theorem xdiv_fin_fin (a b : ℚ) (hb : b ≠ 0) :
    XNum.xdiv (XNum.fin a) (XNum.fin b) = XNum.fin (a / b) := by
  simp [XNum.xdiv, hb]

/-- Evaluation of fit in the width-bound branch (image relatively wider). -/
theorem fit_eval_wide (img : ImageSize) (box : TargetBox)
    (hih : img.height ≠ 0) (hbh : box.height ≠ 0)
    (hr : img.width / img.height ≠ 0)
    (hcmp : box.width / box.height < img.width / img.height) :
    fit img box =
      ⟨XNum.fin box.x,
       XNum.fin (box.y + (box.height - box.width / (img.width / img.height)) / 2),
       XNum.fin box.width,
       XNum.fin (box.width / (img.width / img.height))⟩ := by
  simp only [fit, xdiv_fin_fin img.width img.height hih,
    xdiv_fin_fin box.width box.height hbh]
  simp [XNum.xgt, hcmp, XNum.xdiv, XNum.xsub, XNum.xadd, hr]

/-- Evaluation of fit in the height-bound branch. -/
theorem fit_eval_tall (img : ImageSize) (box : TargetBox)
    (hih : img.height ≠ 0) (hbh : box.height ≠ 0)
    (hcmp : ¬ box.width / box.height < img.width / img.height) :
    fit img box =
      ⟨XNum.fin (box.x + (box.width - box.height * (img.width / img.height)) / 2),
       XNum.fin box.y,
       XNum.fin (box.height * (img.width / img.height)),
       XNum.fin box.height⟩ := by
  simp only [fit, xdiv_fin_fin img.width img.height hih,
    xdiv_fin_fin box.width box.height hbh]
  simp [XNum.xgt, hcmp, XNum.xmul, XNum.xdiv, XNum.xsub, XNum.xadd]

/-- On strictly positive dimensions the fit computation is finite: it keeps
one box dimension, scales the other by the aspect ratio, and centers. -/
theorem fit_pos_spec (img : ImageSize) (box : TargetBox)
    (hiw : 0 < img.width) (hih : 0 < img.height)
    (hbw : 0 < box.width) (hbh : 0 < box.height) :
    ∃ dw dh : ℚ,
      fit img box =
        ⟨XNum.fin (box.x + (box.width - dw) / 2),
         XNum.fin (box.y + (box.height - dh) / 2),
         XNum.fin dw, XNum.fin dh⟩
      ∧ 0 < dw ∧ dw ≤ box.width ∧ 0 < dh ∧ dh ≤ box.height
      ∧ (box.width / box.height < img.width / img.height →
          dw = box.width ∧ dh = box.width / (img.width / img.height))
      ∧ (¬ box.width / box.height < img.width / img.height →
          dh = box.height ∧ dw = box.height * (img.width / img.height)) := by
  have hr : 0 < img.width / img.height := div_pos hiw hih
  have hbr : 0 < box.width / box.height := div_pos hbw hbh
  by_cases hcmp : box.width / box.height < img.width / img.height
  · refine ⟨box.width, box.width / (img.width / img.height), ?_, hbw, le_refl _,
      div_pos hbw hr, ?_, fun _ => ⟨rfl, rfl⟩, fun hc => absurd hcmp hc⟩
    · rw [fit_eval_wide img box hih.ne' hbh.ne' hr.ne' hcmp]
      congr 1
      rw [sub_self, zero_div, add_zero]
    · have h1 : box.width / (img.width / img.height) ≤
          box.width / (box.width / box.height) :=
        div_le_div_of_nonneg_left hbw.le hbr hcmp.le
      have h2 : box.width / (box.width / box.height) = box.height := by
        rw [div_div_eq_mul_div, mul_comm, mul_div_assoc,
          div_self hbw.ne', mul_one]
      rw [h2] at h1
      exact h1
  · refine ⟨box.height * (img.width / img.height), box.height, ?_, ?_, ?_,
      hbh, le_refl _, fun hc => absurd hc hcmp, fun _ => ⟨rfl, rfl⟩⟩
    · rw [fit_eval_tall img box hih.ne' hbh.ne' hcmp]
      congr 1
      rw [sub_self, zero_div, add_zero]
    · positivity
    · have h1 : box.height * (img.width / img.height) ≤
          box.height * (box.width / box.height) := by
        have := not_lt.mp hcmp
        exact mul_le_mul_of_nonneg_left this hbh.le
      have h2 : box.height * (box.width / box.height) = box.width := by
        rw [mul_comm, div_mul_cancel₀ _ hbh.ne']
      rw [h2] at h1
      exact h1

/-! ### The upload deduplication handler (POST /api/upload-pdf)

State model: the UploadedDocument collection is a list of records, the
storage directory a list of file names.  Multer has already written the
incoming file to disk when the handler body runs, so the pre-state contains
the new file name.  SHA-256 digests are abstracted as strings and the hash
computation is assumed to succeed; the handler stores the client-supplied
req.body.pdfHash when present (a None bodyHash also covers an empty string,
both are falsy) and only otherwise the digest computed from the bytes on
disk.  File names are modelled without their .pdf suffix, so the pdfId is
the file name itself. -/

/-- A record of the UploadedDocument mongoose collection. -/
structure UploadedDoc where
  pdfId : String
  pdfPath : String
  pdfHash : String
deriving DecidableEq, Repr

/-- The parts of an upload request the handler body reads. -/
structure UploadReq where
  filename : String
  contentHash : String
  bodyHash : Option String
deriving DecidableEq, Repr

/-- Database plus storage-directory state seen by the upload handler. -/
structure UploadState where
  db : List UploadedDoc
  files : List String
deriving DecidableEq, Repr

/-- The JSON response of /api/upload-pdf. -/
structure UploadResponse where
  success : Bool
  alreadyExists : Bool
  pdfId : String
  url : String
deriving DecidableEq, Repr

/-- The body of the /api/upload-pdf handler after multer stored the file. -/
def uploadPdfHandler (st : UploadState) (req : UploadReq) :
    UploadState × UploadResponse :=
  let pdfId := req.filename
  let publicPath := "/storage/" ++ req.filename
  let pdfHash := req.bodyHash.getD req.contentHash
  match st.db.find? (fun d => d.pdfHash == pdfHash) with
  | some existing =>
      (⟨st.db, st.files.erase req.filename⟩,
       ⟨true, true, existing.pdfId, existing.pdfPath⟩)
  | none =>
      (⟨st.db ++ [⟨pdfId, publicPath, pdfHash⟩], st.files⟩,
       ⟨true, false, pdfId, publicPath⟩)

/-! ### The multi-item signing handler (POST /api/sign-pdf-multi)

The PDF document is abstracted by its page count.  pdfDoc.getPage is the
pdf-lib method PDFDocument.getPage, which calls assertRange and THROWS a
RangeError for an index outside [0, pageCount - 1]; it never returns a falsy
value for an integer index, so the handler code
  const page = pdfDoc.getPage(pageIndex); if (!page) { continue; }
can reach its skip branch only through an undefined array entry, which an
integer index cannot produce.  The model keeps both outcomes: an exception
(Except.error, propagating to the handler try/catch, which answers 500 and
inserts no audit records) and the dead falsy branch (Except.ok none).  The
bytes, the embedded image and the two digests computed by sha256Hex are
abstracted: beforeHash and afterHash are passed through as the strings the
handler would compute; the thrown RangeError message is abstracted as the
string "RangeError". -/

/-- pdf-lib PDFDocument.getPage at an integer index: assertRange throws
outside [0, pageCount - 1], otherwise the page exists and is returned. -/
def getPage (pageCount : Nat) (i : Int) : Except String (Option Nat) :=
  if 0 ≤ i ∧ i < pageCount then Except.ok (some i.toNat)
  else Except.error "RangeError"

/-- One element of the items array of a sign-pdf-multi request. -/
structure MultiItem where
  pageIndex : Int
  pdfBox : TargetBox
deriving DecidableEq, Repr

/-- One page.drawImage call issued by the signing loop. -/
structure DrawOp where
  page : Nat
  rect : FitRect
deriving DecidableEq, Repr

/-- An audit record of the Document collection as built by docsToCreate. -/
structure AuditRecord where
  pdfId : String
  pageIndex : Int
  beforeHash : String
  afterHash : String
deriving DecidableEq, Repr

/-- The JSON success response of /api/sign-pdf-multi. -/
structure MultiResponse where
  success : Bool
  beforeHash : String
  afterHash : String
deriving DecidableEq, Repr

/-- The outcome of a request to /api/sign-pdf-multi. -/
inductive MultiResult where
  | badRequest
  | serverError (msg : String)
  | ok (draws : List DrawOp) (audits : List AuditRecord) (resp : MultiResponse)
deriving DecidableEq, Repr

/-- The for-loop over items: a thrown RangeError aborts the loop (and is
caught by the handler try/catch); a falsy page would log a warning and
continue (a branch no integer index reaches); otherwise the fitted rectangle
is drawn on the page. -/
def drawLoop (pageCount : Nat) (img : ImageSize) :
    List MultiItem → Except String (List DrawOp)
  | [] => Except.ok []
  | it :: rest =>
      match getPage pageCount it.pageIndex with
      | Except.error e => Except.error e
      | Except.ok none => drawLoop pageCount img rest
      | Except.ok (some p) =>
          match drawLoop pageCount img rest with
          | Except.error e => Except.error e
          | Except.ok ds => Except.ok (⟨p, fit img it.pdfBox⟩ :: ds)

/-- The /api/sign-pdf-multi handler body: status 400 for an empty items
array; a RangeError thrown inside the loop reaches the catch, which answers
status 500 with the error message — the mutated document is discarded, no
file is written, no audit records are inserted and no success is reported;
otherwise the draw operations, the docsToCreate audit records (one per
requested item) and the success response. -/
def signPdfMulti (pdfId : String) (pageCount : Nat) (img : ImageSize)
    (items : List MultiItem) (beforeHash afterHash : String) : MultiResult :=
  if items.isEmpty then MultiResult.badRequest
  else
    match drawLoop pageCount img items with
    | Except.error e => MultiResult.serverError e
    | Except.ok draws =>
        MultiResult.ok draws
          (items.map (fun it => ⟨pdfId, it.pageIndex, beforeHash, afterHash⟩))
          ⟨true, beforeHash, afterHash⟩

/-! ### Claims -/

/-- C1: for pixelBox (0,0,100,200), renderedSize 200 by 400 and pagePointSize
595 by 842 the mapper returns fractions (0, 0, 0.5, 0.5) and pointBox
(0, 421, 297.5, 421), the y value coming from the bottom-origin flip
bottomPx = 400 - 0 - 200 = 200, y = clamp01(200/400) * 842 = 421. -/
theorem C1_mapper_concrete_example :
    cssBoxToPdfPoints
      ⟨JSVal.num 0, JSVal.num 0, JSVal.num 100, JSVal.num 200⟩
      ⟨JSVal.num 200, JSVal.num 400⟩ ⟨JSVal.num 595, JSVal.num 842⟩ =
    ⟨⟨XNum.fin 0, XNum.fin 421, XNum.fin (595/2), XNum.fin 421⟩,
     ⟨0, 0, 1/2, 1/2⟩⟩ := by
  norm_num [cssBoxToPdfPoints, toNum0, safeDim, toNum1, clamp01, mathMin,
    mathMax, XNum.finOr0, XNum.xdiv, XNum.xgt, XNum.xmul, XNum.xsub, rnd,
    rndQ, rnd6, jsRound]

/-- C2 is false: each fraction is clamped separately, so a box only partly
inside the render can give x + width beyond the page width.  For pixelBox
(150, 0, 100, 200) on a 200 by 400 render and a 595 by 842 page the mapper
returns x = 446.25 and width = 297.5, whose sum 743.75 exceeds 595. -/
theorem C2_counterexample :
    (cssBoxToPdfPoints ⟨JSVal.num 150, JSVal.num 0, JSVal.num 100, JSVal.num 200⟩
        ⟨JSVal.num 200, JSVal.num 400⟩ ⟨JSVal.num 595, JSVal.num 842⟩).pdfBox.x =
      XNum.fin (1785/4)
    ∧ (cssBoxToPdfPoints ⟨JSVal.num 150, JSVal.num 0, JSVal.num 100, JSVal.num 200⟩
        ⟨JSVal.num 200, JSVal.num 400⟩ ⟨JSVal.num 595, JSVal.num 842⟩).pdfBox.width =
      XNum.fin (595/2)
    ∧ ¬ ((1785/4 : ℚ) + 595/2 ≤ 595) := by
  refine ⟨?_, ?_, by norm_num⟩ <;>
    norm_num [cssBoxToPdfPoints, toNum0, safeDim, toNum1, clamp01, mathMin,
      mathMax, XNum.finOr0, XNum.xdiv, XNum.xgt, XNum.xmul, XNum.xsub, rnd,
      rndQ, rnd6, jsRound]

/-- C2 (amended): for every pixelBox and positive numeric sizes each output
field separately is finite, nonnegative and at most the matching page
dimension plus the 1/200 rounding slack; the claimed joint bounds
x + width at most pageW and y + height at most pageH do not hold because
clamping is applied per fraction, not to the sums. -/
theorem C2_amended_fields_bounded (cssBox : JSBox) (rW rH pW pH : ℚ)
    (hrW : 0 < rW) (hrH : 0 < rH) (hpW : 0 < pW) (hpH : 0 < pH) :
    ∃ qx qy qw qh : ℚ,
      (cssBoxToPdfPoints cssBox ⟨JSVal.num rW, JSVal.num rH⟩
          ⟨JSVal.num pW, JSVal.num pH⟩).pdfBox
        = ⟨XNum.fin qx, XNum.fin qy, XNum.fin qw, XNum.fin qh⟩
      ∧ 0 ≤ qx ∧ qx ≤ pW + 1/200 ∧ 0 ≤ qy ∧ qy ≤ pH + 1/200
      ∧ 0 ≤ qw ∧ qw ≤ pW + 1/200 ∧ 0 ≤ qh ∧ qh ≤ pH + 1/200 := by
  have hmap := map_pos_sizes cssBox rW rH pW pH hrW hrH hpW hpH
  refine ⟨_, _, _, _, by rw [hmap], ?_, ?_, ?_, ?_, ?_, ?_, ?_, ?_⟩
  · exact rndQ_nonneg _ (mul_nonneg (clamp01_nonneg _) hpW.le)
  · exact rndQ_le_add _ pW (mul_le_of_le_one_left hpW.le (clamp01_le_one _))
  · exact rndQ_nonneg _ (mul_nonneg (clamp01_nonneg _) hpH.le)
  · exact rndQ_le_add _ pH (mul_le_of_le_one_left hpH.le (clamp01_le_one _))
  · exact rndQ_nonneg _ (mul_nonneg (clamp01_nonneg _) hpW.le)
  · exact rndQ_le_add _ pW (mul_le_of_le_one_left hpW.le (clamp01_le_one _))
  · exact rndQ_nonneg _ (mul_nonneg (clamp01_nonneg _) hpH.le)
  · exact rndQ_le_add _ pH (mul_le_of_le_one_left hpH.le (clamp01_le_one _))

/-- Witness for C2 (amended) at a concrete input. -/
theorem C2_amended_fields_bounded_witness :
    ∃ qx qy qw qh : ℚ,
      (cssBoxToPdfPoints ⟨JSVal.num 150, JSVal.num 0, JSVal.num 100, JSVal.num 200⟩
          ⟨JSVal.num 200, JSVal.num 400⟩ ⟨JSVal.num 595, JSVal.num 842⟩).pdfBox
        = ⟨XNum.fin qx, XNum.fin qy, XNum.fin qw, XNum.fin qh⟩
      ∧ 0 ≤ qx ∧ qx ≤ 595 + 1/200 ∧ 0 ≤ qy ∧ qy ≤ 842 + 1/200
      ∧ 0 ≤ qw ∧ qw ≤ 595 + 1/200 ∧ 0 ≤ qh ∧ qh ≤ 842 + 1/200 :=
  C2_amended_fields_bounded ⟨JSVal.num 150, JSVal.num 0, JSVal.num 100, JSVal.num 200⟩
    200 400 595 842 (by norm_num) (by norm_num) (by norm_num) (by norm_num)

/-- C3: the fit computation is width-bound exactly when the image ratio
exceeds the box ratio and height-bound otherwise, centered either way, and
fitting a 200 by 100 image into the box (10, 10, 50, 50) gives the rectangle
(10, 22.5, 50, 25). -/
theorem C3_fit_branches :
    (∀ (img : ImageSize) (box : TargetBox),
      0 < img.width → 0 < img.height → 0 < box.width → 0 < box.height →
      (box.width / box.height < img.width / img.height →
        fit img box =
          ⟨XNum.fin box.x,
           XNum.fin (box.y + (box.height - box.width / (img.width / img.height)) / 2),
           XNum.fin box.width,
           XNum.fin (box.width / (img.width / img.height))⟩)
      ∧ (¬ box.width / box.height < img.width / img.height →
        fit img box =
          ⟨XNum.fin (box.x + (box.width - box.height * (img.width / img.height)) / 2),
           XNum.fin box.y,
           XNum.fin (box.height * (img.width / img.height)),
           XNum.fin box.height⟩))
    ∧ fit ⟨200, 100⟩ ⟨10, 10, 50, 50⟩ =
        ⟨XNum.fin 10, XNum.fin (45/2), XNum.fin 50, XNum.fin 25⟩ := by
  constructor
  · intro img box hiw hih hbw hbh
    exact ⟨fun hcmp => fit_eval_wide img box hih.ne' hbh.ne'
        (div_pos hiw hih).ne' hcmp,
      fun hcmp => fit_eval_tall img box hih.ne' hbh.ne' hcmp⟩
  · norm_num [fit, XNum.xdiv, XNum.xgt, XNum.xmul, XNum.xsub, XNum.xadd]

/-- Witness for C3: the width-bound branch at a concrete wide image. -/
theorem C3_fit_branches_witness :
    fit ⟨300, 100⟩ ⟨0, 0, 60, 60⟩ =
      ⟨XNum.fin 0, XNum.fin (0 + (60 - 60 / (300 / 100)) / 2),
       XNum.fin 60, XNum.fin (60 / (300 / 100))⟩ :=
  (C3_fit_branches.1 ⟨300, 100⟩ ⟨0, 0, 60, 60⟩ (by norm_num) (by norm_num)
    (by norm_num) (by norm_num)).1 (by norm_num)

/-- C4 is false: the fit code contains no validation, so the degenerate call
fit((100, 0), (10, 10, 50, 50)) does not raise an invalid-geometry error; in
JavaScript the image ratio becomes plus-infinity, the width-bound branch is
taken, and a plain rectangle with height 0 is returned to the caller. -/
theorem C4_counterexample :
    fit ⟨100, 0⟩ ⟨10, 10, 50, 50⟩ =
      ⟨XNum.fin 10, XNum.fin 35, XNum.fin 50, XNum.fin 0⟩ := by
  norm_num [fit, XNum.xdiv, XNum.xgt, XNum.xmul, XNum.xsub, XNum.xadd]

/-- C4 (amended): zero or negative dimensions are silently accepted: a zero
image height yields a degenerate height-0 rectangle (width-bound branch via
an infinite ratio), and a zero-by-zero image yields NaN x and width; no
error is raised in either case. -/
theorem C4_amended_no_validation :
    (fit ⟨100, 0⟩ ⟨10, 10, 50, 50⟩).height = XNum.fin 0
    ∧ (fit ⟨100, 0⟩ ⟨10, 10, 50, 50⟩).width = XNum.fin 50
    ∧ fit ⟨0, 0⟩ ⟨10, 10, 50, 50⟩ =
        ⟨XNum.nan, XNum.fin 10, XNum.nan, XNum.fin 50⟩ := by
  refine ⟨?_, ?_, ?_⟩ <;>
    norm_num [fit, XNum.xdiv, XNum.xgt, XNum.xmul, XNum.xsub, XNum.xadd]

/-- C8: on strictly positive dimensions the fitted rectangle is finite, lies
inside the target box, and shares the box center. -/
theorem C8_fit_contained_centered (img : ImageSize) (box : TargetBox)
    (hiw : 0 < img.width) (hih : 0 < img.height)
    (hbw : 0 < box.width) (hbh : 0 < box.height) :
    ∃ fx fy fw fh : ℚ,
      fit img box = ⟨XNum.fin fx, XNum.fin fy, XNum.fin fw, XNum.fin fh⟩
      ∧ box.x ≤ fx ∧ fx + fw ≤ box.x + box.width
      ∧ box.y ≤ fy ∧ fy + fh ≤ box.y + box.height
      ∧ fx + fw / 2 = box.x + box.width / 2
      ∧ fy + fh / 2 = box.y + box.height / 2 := by
  obtain ⟨dw, dh, heq, hdw0, hdwle, hdh0, hdhle, -, -⟩ :=
    fit_pos_spec img box hiw hih hbw hbh
  exact ⟨box.x + (box.width - dw) / 2, box.y + (box.height - dh) / 2, dw, dh,
    heq, by linarith, by linarith, by linarith, by linarith, by ring, by ring⟩

/-- Witness for C8 at the 200 by 100 image and the square box. -/
theorem C8_fit_contained_centered_witness :
    ∃ fx fy fw fh : ℚ,
      fit ⟨200, 100⟩ ⟨10, 10, 50, 50⟩ =
        ⟨XNum.fin fx, XNum.fin fy, XNum.fin fw, XNum.fin fh⟩
      ∧ (10 : ℚ) ≤ fx ∧ fx + fw ≤ 10 + 50
      ∧ (10 : ℚ) ≤ fy ∧ fy + fh ≤ 10 + 50
      ∧ fx + fw / 2 = 10 + 50 / 2
      ∧ fy + fh / 2 = 10 + 50 / 2 :=
  C8_fit_contained_centered ⟨200, 100⟩ ⟨10, 10, 50, 50⟩
    (by norm_num) (by norm_num) (by norm_num) (by norm_num)

/-- C6: the mapper is total: clamp01 sends every non-finite value to 0 and
clamps finite values to the unit interval; zero, negative and non-numeric
size fields are coerced to 1; every divisor produced by safeDim is either a
strictly positive finite number or plus-infinity, never zero; and the
returned fractions always lie in the unit interval, so the output is defined
for every input. -/
theorem C6_mapper_total :
    (clamp01 XNum.nan = 0 ∧ clamp01 XNum.pinf = 0 ∧ clamp01 XNum.ninf = 0)
    ∧ (∀ q : ℚ, clamp01 (XNum.fin q) = max 0 (min 1 q))
    ∧ (∀ q : ℚ, q ≤ 0 → safeDim (JSVal.num q) = XNum.fin 1)
    ∧ (safeDim JSVal.undef = XNum.fin 1 ∧ safeDim JSVal.nan = XNum.fin 1
        ∧ safeDim JSVal.badstr = XNum.fin 1)
    ∧ (∀ v : JSVal, safeDim v = XNum.pinf
        ∨ ∃ q : ℚ, 0 < q ∧ safeDim v = XNum.fin q)
    ∧ (∀ (cssBox : JSBox) (rs ps : JSSize),
        (0 ≤ (cssBoxToPdfPoints cssBox rs ps).fractions.x_frac
          ∧ (cssBoxToPdfPoints cssBox rs ps).fractions.x_frac ≤ 1)
        ∧ (0 ≤ (cssBoxToPdfPoints cssBox rs ps).fractions.y_frac
          ∧ (cssBoxToPdfPoints cssBox rs ps).fractions.y_frac ≤ 1)
        ∧ (0 ≤ (cssBoxToPdfPoints cssBox rs ps).fractions.w_frac
          ∧ (cssBoxToPdfPoints cssBox rs ps).fractions.w_frac ≤ 1)
        ∧ (0 ≤ (cssBoxToPdfPoints cssBox rs ps).fractions.h_frac
          ∧ (cssBoxToPdfPoints cssBox rs ps).fractions.h_frac ≤ 1)) := by
  refine ⟨⟨?_, ?_, ?_⟩, ?_, ?_, ⟨?_, ?_, ?_⟩, ?_, ?_⟩
  · norm_num [clamp01, mathMax, mathMin, XNum.finOr0]
  · norm_num [clamp01, mathMax, mathMin, XNum.finOr0]
  · norm_num [clamp01, mathMax, mathMin, XNum.finOr0]
  · intro q
    rw [clamp01, mathMax_eq_max, mathMin_eq_min]
    rfl
  · intro q hq
    rcases eq_or_ne q 0 with rfl | hne
    · norm_num [safeDim, toNum1, XNum.xgt]
    · norm_num [safeDim, toNum1, XNum.xgt, hne, not_lt.mpr hq]
  · norm_num [safeDim, toNum1, XNum.xgt]
  · norm_num [safeDim, toNum1, XNum.xgt]
  · norm_num [safeDim, toNum1, XNum.xgt]
  · intro v
    cases v with
    | num q =>
        rcases lt_trichotomy q 0 with hlt | rfl | hgt
        · exact Or.inr ⟨1, one_pos, by
            norm_num [safeDim, toNum1, XNum.xgt, hlt.ne, not_lt.mpr hlt.le]⟩
        · exact Or.inr ⟨1, one_pos, by norm_num [safeDim, toNum1, XNum.xgt]⟩
        · exact Or.inr ⟨q, hgt, by norm_num [safeDim, toNum1, XNum.xgt, hgt.ne', hgt]⟩
    | nan => exact Or.inr ⟨1, one_pos, by norm_num [safeDim, toNum1, XNum.xgt]⟩
    | pinf => exact Or.inl (by norm_num [safeDim, toNum1, XNum.xgt])
    | ninf => exact Or.inr ⟨1, one_pos, by norm_num [safeDim, toNum1, XNum.xgt]⟩
    | undef => exact Or.inr ⟨1, one_pos, by norm_num [safeDim, toNum1, XNum.xgt]⟩
    | badstr => exact Or.inr ⟨1, one_pos, by norm_num [safeDim, toNum1, XNum.xgt]⟩
  · intro cssBox rs ps
    simp only [cssBoxToPdfPoints]
    exact ⟨⟨rnd6_nonneg _ (clamp01_nonneg _), rnd6_le_one _ (clamp01_le_one _)⟩,
      ⟨rnd6_nonneg _ (clamp01_nonneg _), rnd6_le_one _ (clamp01_le_one _)⟩,
      ⟨rnd6_nonneg _ (clamp01_nonneg _), rnd6_le_one _ (clamp01_le_one _)⟩,
      ⟨rnd6_nonneg _ (clamp01_nonneg _), rnd6_le_one _ (clamp01_le_one _)⟩⟩

/-- Witness for C6: the coercion to 1 at the concrete negative size -5. -/
theorem C6_mapper_total_witness :
    safeDim (JSVal.num (-5)) = XNum.fin 1 :=
  C6_mapper_total.2.2.1 (-5) (by norm_num)

/-- The substitution of the number 0 for an absent or NaN field. -/
def defaultZero : JSVal → JSVal
  | JSVal.undef => JSVal.num 0
  | JSVal.nan => JSVal.num 0
  | v => v

theorem toNum0_defaultZero (v : JSVal) : toNum0 (defaultZero v) = toNum0 v := by
  cases v <;> rfl

/-- C7 is false for a truthy non-numeric field: Number("abc" || 0) is NaN,
not 0.  With the height field given as such a value the bottom-distance
computation becomes NaN, so y collapses to 0, while replacing the field by
the number 0 gives y = 842; the two outputs differ. -/
theorem C7_counterexample :
    (cssBoxToPdfPoints ⟨JSVal.num 0, JSVal.num 0, JSVal.num 100, JSVal.badstr⟩
        ⟨JSVal.num 200, JSVal.num 400⟩ ⟨JSVal.num 595, JSVal.num 842⟩).pdfBox.y
      = XNum.fin 0
    ∧ (cssBoxToPdfPoints ⟨JSVal.num 0, JSVal.num 0, JSVal.num 100, JSVal.num 0⟩
        ⟨JSVal.num 200, JSVal.num 400⟩ ⟨JSVal.num 595, JSVal.num 842⟩).pdfBox.y
      = XNum.fin 842
    ∧ XNum.fin (0 : ℚ) ≠ XNum.fin (842 : ℚ) := by
  refine ⟨?_, ?_, by norm_num⟩ <;>
    norm_num [cssBoxToPdfPoints, toNum0, safeDim, toNum1, clamp01, mathMin,
      mathMax, XNum.finOr0, XNum.xdiv, XNum.xgt, XNum.xmul, XNum.xsub, rnd,
      rndQ, rnd6, jsRound]

/-- C7 (amended): a pixelBox field that is absent, undefined or the number
NaN is treated exactly as the number 0 (both are falsy, so the coercion
Number(v or 0) yields 0) and no error is raised; this does not extend to
truthy non-numeric values, which convert to NaN instead. -/
theorem C7_amended_absent_nan_as_zero (cssBox : JSBox) (rs ps : JSSize) :
    cssBoxToPdfPoints ⟨defaultZero cssBox.left, defaultZero cssBox.top,
        defaultZero cssBox.width, defaultZero cssBox.height⟩ rs ps =
    cssBoxToPdfPoints cssBox rs ps := by
  simp only [cssBoxToPdfPoints, toNum0_defaultZero]

/-- Full evaluation of the mapper at an all-numeric pixel box and positive
numeric sizes. -/
theorem map_num_eval (l t w h rW rH pW pH : ℚ)
    (hrW : 0 < rW) (hrH : 0 < rH) (hpW : 0 < pW) (hpH : 0 < pH) :
    cssBoxToPdfPoints ⟨JSVal.num l, JSVal.num t, JSVal.num w, JSVal.num h⟩
      ⟨JSVal.num rW, JSVal.num rH⟩ ⟨JSVal.num pW, JSVal.num pH⟩ =
    { pdfBox :=
        { x := XNum.fin (rndQ (clamp01 (XNum.fin (l / rW)) * pW))
          y := XNum.fin (rndQ (clamp01 (XNum.fin ((rH - t - h) / rH)) * pH))
          width := XNum.fin (rndQ (clamp01 (XNum.fin (w / rW)) * pW))
          height := XNum.fin (rndQ (clamp01 (XNum.fin (h / rH)) * pH)) }
      fractions :=
        { x_frac := rnd6 (clamp01 (XNum.fin (l / rW)))
          y_frac := rnd6 (clamp01 (XNum.fin (t / rH)))
          w_frac := rnd6 (clamp01 (XNum.fin (w / rW)))
          h_frac := rnd6 (clamp01 (XNum.fin (h / rH))) } } := by
  rw [map_pos_sizes _ rW rH pW pH hrW hrH hpW hpH]
  simp only [toNum0, XNum.xsub]
  rw [xdiv_fin_fin l rW hrW.ne', xdiv_fin_fin w rW hrW.ne',
    xdiv_fin_fin t rH hrH.ne', xdiv_fin_fin h rH hrH.ne',
    xdiv_fin_fin (rH - t - h) rH hrH.ne']

/-- C5 is false as stated: for a box that sticks out above the rendered area
the clamped vertical fraction hides position information, so the round trip
moves y by far more than 0.01 points.  For pixelBox (0, -100, 100, 50) the
first run gives y = 842 with fractions (0, 0, 0.5, 0.125); reconstructing
the pixel box from those fractions and re-running the mapper gives
y = 736.75, a difference of 105.25 points. -/
theorem C5_counterexample :
    (cssBoxToPdfPoints ⟨JSVal.num 0, JSVal.num (-100), JSVal.num 100, JSVal.num 50⟩
        ⟨JSVal.num 200, JSVal.num 400⟩ ⟨JSVal.num 595, JSVal.num 842⟩).fractions
      = ⟨0, 0, 1/2, 1/8⟩
    ∧ (cssBoxToPdfPoints ⟨JSVal.num 0, JSVal.num (-100), JSVal.num 100, JSVal.num 50⟩
        ⟨JSVal.num 200, JSVal.num 400⟩ ⟨JSVal.num 595, JSVal.num 842⟩).pdfBox.y
      = XNum.fin 842
    ∧ (cssBoxToPdfPoints ⟨JSVal.num (0 * 200), JSVal.num (0 * 400),
          JSVal.num (1/2 * 200), JSVal.num (1/8 * 400)⟩
        ⟨JSVal.num 200, JSVal.num 400⟩ ⟨JSVal.num 595, JSVal.num 842⟩).pdfBox.y
      = XNum.fin (2947/4)
    ∧ ¬ (|(2947/4 : ℚ) - 842| ≤ 1/100) := by
  refine ⟨?_, ?_, ?_, ?_⟩
  · norm_num [cssBoxToPdfPoints, toNum0, safeDim, toNum1, clamp01, mathMin,
      mathMax, XNum.finOr0, XNum.xdiv, XNum.xgt, XNum.xmul, XNum.xsub, rnd,
      rndQ, rnd6, jsRound]
  · norm_num [cssBoxToPdfPoints, toNum0, safeDim, toNum1, clamp01, mathMin,
      mathMax, XNum.finOr0, XNum.xdiv, XNum.xgt, XNum.xmul, XNum.xsub, rnd,
      rndQ, rnd6, jsRound]
  · norm_num [cssBoxToPdfPoints, toNum0, safeDim, toNum1, clamp01, mathMin,
      mathMax, XNum.finOr0, XNum.xdiv, XNum.xgt, XNum.xmul, XNum.xsub, rnd,
      rndQ, rnd6, jsRound]
  · rw [show (2947/4 : ℚ) - 842 = -(421/4) by norm_num, abs_neg,
      abs_of_nonneg (by norm_num : (0:ℚ) ≤ 421/4)]
    norm_num

/-- C5 (amended): for a pixel box fully inside the rendered area and positive
numeric sizes, reconstructing the pixel box from the returned fractions and
re-running the mapper reproduces every pointBox field within
0.01 + pageDimension/500000 points: the extra term accounts for the
6-decimal rounding of the stored fractions being scaled back up by the page
size, and the restriction to in-bounds boxes is necessary because clamping
destroys position information otherwise (see the counterexample). -/
theorem C5_amended_roundtrip (l t w h rW rH pW pH : ℚ)
    (hl : 0 ≤ l) (ht : 0 ≤ t) (hw : 0 ≤ w) (hh : 0 ≤ h)
    (hlw : l + w ≤ rW) (hth : t + h ≤ rH)
    (hrW : 0 < rW) (hrH : 0 < rH) (hpW : 0 < pW) (hpH : 0 < pH)
    (r1 r2 : MapResult)
    (hr1 : r1 = cssBoxToPdfPoints
        ⟨JSVal.num l, JSVal.num t, JSVal.num w, JSVal.num h⟩
        ⟨JSVal.num rW, JSVal.num rH⟩ ⟨JSVal.num pW, JSVal.num pH⟩)
    (hr2 : r2 = cssBoxToPdfPoints
        ⟨JSVal.num (r1.fractions.x_frac * rW), JSVal.num (r1.fractions.y_frac * rH),
         JSVal.num (r1.fractions.w_frac * rW), JSVal.num (r1.fractions.h_frac * rH)⟩
        ⟨JSVal.num rW, JSVal.num rH⟩ ⟨JSVal.num pW, JSVal.num pH⟩) :
    ∃ x1 y1 w1 h1 x2 y2 w2 h2 : ℚ,
      r1.pdfBox = ⟨XNum.fin x1, XNum.fin y1, XNum.fin w1, XNum.fin h1⟩
      ∧ r2.pdfBox = ⟨XNum.fin x2, XNum.fin y2, XNum.fin w2, XNum.fin h2⟩
      ∧ |x2 - x1| ≤ 1/100 + pW/500000
      ∧ |y2 - y1| ≤ 1/100 + pH/500000
      ∧ |w2 - w1| ≤ 1/100 + pW/500000
      ∧ |h2 - h1| ≤ 1/100 + pH/500000 := by
  have hlr : l ≤ rW := by linarith
  have hwr : w ≤ rW := by linarith
  have htr : t ≤ rH := by linarith
  have hhr : h ≤ rH := by linarith
  have hlf0 : 0 ≤ l / rW := div_nonneg hl hrW.le
  have hlf1 : l / rW ≤ 1 := (div_le_one hrW).mpr hlr
  have htf0 : 0 ≤ t / rH := div_nonneg ht hrH.le
  have htf1 : t / rH ≤ 1 := (div_le_one hrH).mpr htr
  have hwf0 : 0 ≤ w / rW := div_nonneg hw hrW.le
  have hwf1 : w / rW ≤ 1 := (div_le_one hrW).mpr hwr
  have hhf0 : 0 ≤ h / rH := div_nonneg hh hrH.le
  have hhf1 : h / rH ≤ 1 := (div_le_one hrH).mpr hhr
  rw [map_num_eval l t w h rW rH pW pH hrW hrH hpW hpH,
    clamp01_fin_of_mem (l / rW) hlf0 hlf1,
    clamp01_fin_of_mem (t / rH) htf0 htf1,
    clamp01_fin_of_mem (w / rW) hwf0 hwf1,
    clamp01_fin_of_mem (h / rH) hhf0 hhf1,
    show (rH - t - h) / rH = 1 - t / rH - h / rH by
      rw [sub_div, sub_div, div_self hrH.ne']] at hr1
  subst hr1
  dsimp only at hr2
  rw [map_num_eval _ _ _ _ rW rH pW pH hrW hrH hpW hpH,
    mul_div_cancel_right₀ (rnd6 (l / rW)) hrW.ne',
    mul_div_cancel_right₀ (rnd6 (t / rH)) hrH.ne',
    mul_div_cancel_right₀ (rnd6 (w / rW)) hrW.ne',
    mul_div_cancel_right₀ (rnd6 (h / rH)) hrH.ne',
    show (rH - rnd6 (t / rH) * rH - rnd6 (h / rH) * rH) / rH
        = 1 - rnd6 (t / rH) - rnd6 (h / rH) by
      rw [sub_div, sub_div, div_self hrH.ne',
        mul_div_cancel_right₀ (rnd6 (t / rH)) hrH.ne',
        mul_div_cancel_right₀ (rnd6 (h / rH)) hrH.ne'],
    clamp01_fin_of_mem (rnd6 (l / rW)) (rnd6_nonneg _ hlf0) (rnd6_le_one _ hlf1),
    clamp01_fin_of_mem (rnd6 (w / rW)) (rnd6_nonneg _ hwf0) (rnd6_le_one _ hwf1),
    clamp01_fin_of_mem (rnd6 (h / rH)) (rnd6_nonneg _ hhf0) (rnd6_le_one _ hhf1)]
    at hr2
  subst hr2
  refine ⟨rndQ (l / rW * pW),
    rndQ (clamp01 (XNum.fin (1 - t / rH - h / rH)) * pH),
    rndQ (w / rW * pW), rndQ (h / rH * pH),
    rndQ (rnd6 (l / rW) * pW),
    rndQ (clamp01 (XNum.fin (1 - rnd6 (t / rH) - rnd6 (h / rH))) * pH),
    rndQ (rnd6 (w / rW) * pW), rndQ (rnd6 (h / rH) * pH),
    rfl, rfl, ?_, ?_, ?_, ?_⟩
  · have hd : |rnd6 (l / rW) * pW - l / rW * pW| ≤ pW / 2000000 := by
      rw [← sub_mul, abs_mul, abs_of_pos hpW]
      have := mul_le_mul_of_nonneg_right (rnd6_close (l / rW)) hpW.le
      linarith
    have := rndQ_close _ _ _ hd
    linarith
  · have ht6 := rnd6_close (t / rH)
    have hh6 := rnd6_close (h / rH)
    have hu : |(1 - rnd6 (t / rH) - rnd6 (h / rH)) - (1 - t / rH - h / rH)|
        ≤ 1 / 1000000 := by
      rw [abs_le] at ht6 hh6 ⊢
      constructor <;> linarith
    have hc := (clamp01_fin_lipschitz (1 - rnd6 (t / rH) - rnd6 (h / rH))
      (1 - t / rH - h / rH)).trans hu
    have hd : |clamp01 (XNum.fin (1 - rnd6 (t / rH) - rnd6 (h / rH))) * pH
        - clamp01 (XNum.fin (1 - t / rH - h / rH)) * pH| ≤ pH / 1000000 := by
      rw [← sub_mul, abs_mul, abs_of_pos hpH]
      have := mul_le_mul_of_nonneg_right hc hpH.le
      linarith
    have := rndQ_close _ _ _ hd
    linarith
  · have hd : |rnd6 (w / rW) * pW - w / rW * pW| ≤ pW / 2000000 := by
      rw [← sub_mul, abs_mul, abs_of_pos hpW]
      have := mul_le_mul_of_nonneg_right (rnd6_close (w / rW)) hpW.le
      linarith
    have := rndQ_close _ _ _ hd
    linarith
  · have hd : |rnd6 (h / rH) * pH - h / rH * pH| ≤ pH / 2000000 := by
      rw [← sub_mul, abs_mul, abs_of_pos hpH]
      have := mul_le_mul_of_nonneg_right (rnd6_close (h / rH)) hpH.le
      linarith
    have := rndQ_close _ _ _ hd
    linarith

/-- C5 witness at the concrete in-bounds box of the specification example. -/
theorem C5_amended_roundtrip_witness :
    ∃ x1 y1 w1 h1 x2 y2 w2 h2 : ℚ,
      (cssBoxToPdfPoints ⟨JSVal.num 0, JSVal.num 0, JSVal.num 100, JSVal.num 200⟩
          ⟨JSVal.num 200, JSVal.num 400⟩ ⟨JSVal.num 595, JSVal.num 842⟩).pdfBox
        = ⟨XNum.fin x1, XNum.fin y1, XNum.fin w1, XNum.fin h1⟩
      ∧ (cssBoxToPdfPoints
          ⟨JSVal.num ((cssBoxToPdfPoints
              ⟨JSVal.num 0, JSVal.num 0, JSVal.num 100, JSVal.num 200⟩
              ⟨JSVal.num 200, JSVal.num 400⟩
              ⟨JSVal.num 595, JSVal.num 842⟩).fractions.x_frac * 200),
           JSVal.num ((cssBoxToPdfPoints
              ⟨JSVal.num 0, JSVal.num 0, JSVal.num 100, JSVal.num 200⟩
              ⟨JSVal.num 200, JSVal.num 400⟩
              ⟨JSVal.num 595, JSVal.num 842⟩).fractions.y_frac * 400),
           JSVal.num ((cssBoxToPdfPoints
              ⟨JSVal.num 0, JSVal.num 0, JSVal.num 100, JSVal.num 200⟩
              ⟨JSVal.num 200, JSVal.num 400⟩
              ⟨JSVal.num 595, JSVal.num 842⟩).fractions.w_frac * 200),
           JSVal.num ((cssBoxToPdfPoints
              ⟨JSVal.num 0, JSVal.num 0, JSVal.num 100, JSVal.num 200⟩
              ⟨JSVal.num 200, JSVal.num 400⟩
              ⟨JSVal.num 595, JSVal.num 842⟩).fractions.h_frac * 400)⟩
          ⟨JSVal.num 200, JSVal.num 400⟩ ⟨JSVal.num 595, JSVal.num 842⟩).pdfBox
        = ⟨XNum.fin x2, XNum.fin y2, XNum.fin w2, XNum.fin h2⟩
      ∧ |x2 - x1| ≤ 1/100 + 595/500000
      ∧ |y2 - y1| ≤ 1/100 + 842/500000
      ∧ |w2 - w1| ≤ 1/100 + 595/500000
      ∧ |h2 - h1| ≤ 1/100 + 842/500000 :=
  C5_amended_roundtrip 0 0 100 200 200 400 595 842
    (by norm_num) (by norm_num) (by norm_num) (by norm_num)
    (by norm_num) (by norm_num) (by norm_num) (by norm_num)
    (by norm_num) (by norm_num) _ _ rfl rfl

/-! ### Claims about the server handlers -/

/-- Reduction of the upload handler when the deduplication key is absent
from the collection. -/
theorem uploadPdfHandler_miss (st : UploadState) (req : UploadReq)
    (h : st.db.find? (fun d => d.pdfHash == req.bodyHash.getD req.contentHash)
        = none) :
    uploadPdfHandler st req =
      (⟨st.db ++ [⟨req.filename, "/storage/" ++ req.filename,
          req.bodyHash.getD req.contentHash⟩], st.files⟩,
       ⟨true, false, req.filename, "/storage/" ++ req.filename⟩) := by
  simp only [uploadPdfHandler, h]

/-- Reduction of the upload handler when the deduplication key matches a
stored record. -/
theorem uploadPdfHandler_hit (st : UploadState) (req : UploadReq)
    (d : UploadedDoc)
    (h : st.db.find? (fun d => d.pdfHash == req.bodyHash.getD req.contentHash)
        = some d) :
    uploadPdfHandler st req =
      (⟨st.db, st.files.erase req.filename⟩,
       ⟨true, true, d.pdfId, d.pdfPath⟩) := by
  simp only [uploadPdfHandler, h]

/-- C9 is false as stated: the handler trusts a client-supplied pdfHash over
the server-computed digest.  A request whose bytes hash to h1, already the
hash of the stored record doc1, but whose body claims pdfHash h2, bypasses
deduplication: a second record is created for the same content and the
response does not report an existing document. -/
theorem C9_counterexample :
    (uploadPdfHandler ⟨[⟨"doc1", "/storage/doc1", "h1"⟩], ["doc1", "dup1"]⟩
        ⟨"dup1", "h1", some "h2"⟩).1.db
      = [⟨"doc1", "/storage/doc1", "h1"⟩, ⟨"dup1", "/storage/dup1", "h2"⟩]
    ∧ (uploadPdfHandler ⟨[⟨"doc1", "/storage/doc1", "h1"⟩], ["doc1", "dup1"]⟩
        ⟨"dup1", "h1", some "h2"⟩).2.alreadyExists = false
    ∧ (⟨"dup1", "h1", some "h2"⟩ : UploadReq).contentHash
        = (⟨"doc1", "/storage/doc1", "h1"⟩ : UploadedDoc).pdfHash := by
  refine ⟨?_, ?_, rfl⟩ <;> rfl

/-- C9 (amended): deduplication keys on the client-supplied pdfHash when one
is present and only otherwise on the computed digest.  When the client is
honest (no bodyHash, or a bodyHash equal to the true content hash) an upload
whose hash matches a stored record is answered with that record, the new
file is deleted and no record is created; a miss appends exactly one record;
and distinctness of the stored pdfHash keys is preserved. -/
theorem C9_amended_dedup (st : UploadState) (req : UploadReq)
    (hhonest : req.bodyHash = none ∨ req.bodyHash = some req.contentHash)
    (hnodup : (st.db.map (fun d => d.pdfHash)).Nodup) :
    ((uploadPdfHandler st req).1.db.map (fun d => d.pdfHash)).Nodup
    ∧ ((∃ d ∈ st.db, d.pdfHash = req.contentHash) →
        (uploadPdfHandler st req).1.db = st.db
        ∧ (uploadPdfHandler st req).2.alreadyExists = true
        ∧ (uploadPdfHandler st req).1.files = st.files.erase req.filename
        ∧ ∃ d ∈ st.db, d.pdfHash = req.contentHash
            ∧ (uploadPdfHandler st req).2.pdfId = d.pdfId
            ∧ (uploadPdfHandler st req).2.url = d.pdfPath)
    ∧ ((∀ d ∈ st.db, d.pdfHash ≠ req.contentHash) →
        (uploadPdfHandler st req).1.db
          = st.db ++ [⟨req.filename, "/storage/" ++ req.filename,
              req.contentHash⟩]) := by
  have hkey : req.bodyHash.getD req.contentHash = req.contentHash := by
    rcases hhonest with h | h <;> simp [h]
  rcases hfind : st.db.find?
      (fun d => d.pdfHash == req.bodyHash.getD req.contentHash) with _ | d
  · rw [uploadPdfHandler_miss st req hfind, hkey]
    rw [hkey] at hfind
    have hnone := List.find?_eq_none.mp hfind
    refine ⟨?_, ?_, fun _ => rfl⟩
    · have hnotin : req.contentHash ∉ st.db.map (fun d => d.pdfHash) := by
        intro hmem
        obtain ⟨d, hd, hdh⟩ := List.mem_map.mp hmem
        have := hnone d hd
        simp [hdh] at this
      simp [List.nodup_append, hnodup, hnotin]
    · rintro ⟨d, hd, hdh⟩
      have := hnone d hd
      simp [hdh] at this
  · rw [hkey] at hfind
    have hpd : d.pdfHash = req.contentHash := by
      have := List.find?_some hfind
      simpa using this
    have hmem : d ∈ st.db := List.mem_of_find?_eq_some hfind
    rw [uploadPdfHandler_hit st req d (by rw [hkey]; exact hfind)]
    exact ⟨hnodup, fun _ => ⟨rfl, rfl, rfl, d, hmem, hpd, rfl, rfl⟩,
      fun hall => absurd hpd (hall d hmem)⟩

/-- Witness for C9 (amended): an honest duplicate upload is answered with
the stored record and leaves the collection unchanged. -/
theorem C9_amended_dedup_witness :
    (((uploadPdfHandler ⟨[⟨"doc1", "/storage/doc1", "h1"⟩], ["doc1", "dup1"]⟩
        ⟨"dup1", "h1", none⟩).1.db.map (fun d => d.pdfHash)).Nodup)
    ∧ ((∃ d ∈ [(⟨"doc1", "/storage/doc1", "h1"⟩ : UploadedDoc)],
          d.pdfHash = "h1") →
        (uploadPdfHandler ⟨[⟨"doc1", "/storage/doc1", "h1"⟩], ["doc1", "dup1"]⟩
          ⟨"dup1", "h1", none⟩).1.db = [⟨"doc1", "/storage/doc1", "h1"⟩]
        ∧ (uploadPdfHandler ⟨[⟨"doc1", "/storage/doc1", "h1"⟩], ["doc1", "dup1"]⟩
          ⟨"dup1", "h1", none⟩).2.alreadyExists = true
        ∧ (uploadPdfHandler ⟨[⟨"doc1", "/storage/doc1", "h1"⟩], ["doc1", "dup1"]⟩
          ⟨"dup1", "h1", none⟩).1.files = ["doc1", "dup1"].erase "dup1"
        ∧ ∃ d ∈ [(⟨"doc1", "/storage/doc1", "h1"⟩ : UploadedDoc)],
            d.pdfHash = "h1"
            ∧ (uploadPdfHandler ⟨[⟨"doc1", "/storage/doc1", "h1"⟩], ["doc1", "dup1"]⟩
                ⟨"dup1", "h1", none⟩).2.pdfId = d.pdfId
            ∧ (uploadPdfHandler ⟨[⟨"doc1", "/storage/doc1", "h1"⟩], ["doc1", "dup1"]⟩
                ⟨"dup1", "h1", none⟩).2.url = d.pdfPath)
    ∧ ((∀ d ∈ [(⟨"doc1", "/storage/doc1", "h1"⟩ : UploadedDoc)],
          d.pdfHash ≠ "h1") →
        (uploadPdfHandler ⟨[⟨"doc1", "/storage/doc1", "h1"⟩], ["doc1", "dup1"]⟩
          ⟨"dup1", "h1", none⟩).1.db
          = [⟨"doc1", "/storage/doc1", "h1"⟩]
            ++ [⟨"dup1", "/storage/" ++ "dup1", "h1"⟩]) :=
  C9_amended_dedup ⟨[⟨"doc1", "/storage/doc1", "h1"⟩], ["doc1", "dup1"]⟩
    ⟨"dup1", "h1", none⟩ (Or.inl rfl) (by simp)

/-- The loop aborts with the thrown RangeError when some item has an
out-of-range page index. -/
theorem drawLoop_error_of_invalid (pageCount : Nat) (img : ImageSize)
    (items : List MultiItem)
    (hbad : ∃ it ∈ items,
      ¬ (0 ≤ it.pageIndex ∧ it.pageIndex < (pageCount : Int))) :
    ∃ e, drawLoop pageCount img items = Except.error e := by
  induction items with
  | nil =>
      obtain ⟨it, hit, -⟩ := hbad
      exact absurd hit (List.not_mem_nil it)
  | cons it rest ih =>
      by_cases hvalid : 0 ≤ it.pageIndex ∧ it.pageIndex < (pageCount : Int)
      · obtain ⟨jt, hjt, hj⟩ := hbad
        rcases List.mem_cons.mp hjt with rfl | hjt
        · exact absurd hvalid hj
        · obtain ⟨e, he⟩ := ih ⟨jt, hjt, hj⟩
          exact ⟨e, by simp [drawLoop, getPage, if_pos hvalid, he]⟩
      · exact ⟨"RangeError", by simp [drawLoop, getPage, if_neg hvalid]⟩

/-- With every page index in range the loop draws one rectangle per item. -/
theorem drawLoop_ok_of_valid (pageCount : Nat) (img : ImageSize)
    (items : List MultiItem)
    (hval : ∀ it ∈ items, 0 ≤ it.pageIndex ∧ it.pageIndex < (pageCount : Int)) :
    drawLoop pageCount img items =
      Except.ok (items.map fun it => ⟨it.pageIndex.toNat, fit img it.pdfBox⟩) := by
  induction items with
  | nil => rfl
  | cons it rest ih =>
      have hv := hval it (List.mem_cons_self it rest)
      have hrest := ih (fun jt hjt => hval jt (List.mem_cons_of_mem it hjt))
      simp [drawLoop, getPage, if_pos hv, hrest]

/-- C10 is false: pdf-lib PDFDocument.getPage throws a RangeError for a page
index with no page, so the item is not silently skipped — the exception
reaches the handler catch, which answers status 500: no audit records are
inserted and no success with beforeHash/afterHash is reported.  The single
item with pageIndex 5 on a one-page document produces the error response. -/
theorem C10_counterexample :
    signPdfMulti "doc" 1 ⟨100, 50⟩ [⟨5, ⟨0, 0, 10, 10⟩⟩] "b" "a"
      = MultiResult.serverError "RangeError" := rfl

/-- C10 (amended): an item whose pageIndex has no page makes getPage throw,
so the whole request fails with the 500 error response — nothing is drawn
to a saved document, no audit record is inserted and no success is reported
(the skip branch guarding a falsy page is unreachable for integer indices);
when every pageIndex is valid, one rectangle is drawn and one audit record
carrying the shared beforeHash/afterHash is inserted per item, and the
response is success with the same hashes. -/
theorem C10_amended_invalid_page_errors (pdfId : String) (pageCount : Nat)
    (img : ImageSize) (items : List MultiItem) (bh ah : String)
    (hne : items ≠ []) :
    ((∃ it ∈ items, ¬ (0 ≤ it.pageIndex ∧ it.pageIndex < (pageCount : Int))) →
      ∃ e, signPdfMulti pdfId pageCount img items bh ah
        = MultiResult.serverError e)
    ∧ ((∀ it ∈ items, 0 ≤ it.pageIndex ∧ it.pageIndex < (pageCount : Int)) →
      signPdfMulti pdfId pageCount img items bh ah
        = MultiResult.ok
            (items.map fun it => ⟨it.pageIndex.toNat, fit img it.pdfBox⟩)
            (items.map fun it => ⟨pdfId, it.pageIndex, bh, ah⟩)
            ⟨true, bh, ah⟩) := by
  have hempty : items.isEmpty = false := by
    cases items with
    | nil => exact absurd rfl hne
    | cons a l => rfl
  constructor
  · intro hbad
    obtain ⟨e, he⟩ := drawLoop_error_of_invalid pageCount img items hbad
    exact ⟨e, by simp [signPdfMulti, hempty, he]⟩
  · intro hval
    simp [signPdfMulti, hempty, drawLoop_ok_of_valid pageCount img items hval]

/-- Witness for C10 (amended): pageIndex 5 on a one-page document yields the
error response; pageIndex 0 succeeds with one draw and one audit record. -/
theorem C10_amended_invalid_page_errors_witness :
    (∃ e, signPdfMulti "doc" 1 ⟨100, 50⟩ [⟨5, ⟨0, 0, 10, 10⟩⟩] "b" "a"
        = MultiResult.serverError e)
    ∧ signPdfMulti "doc" 1 ⟨100, 50⟩ [⟨0, ⟨0, 0, 10, 10⟩⟩] "b" "a"
        = MultiResult.ok
            ([(⟨0, ⟨0, 0, 10, 10⟩⟩ : MultiItem)].map
              fun it => ⟨it.pageIndex.toNat, fit ⟨100, 50⟩ it.pdfBox⟩)
            ([(⟨0, ⟨0, 0, 10, 10⟩⟩ : MultiItem)].map
              fun it => ⟨"doc", it.pageIndex, "b", "a"⟩)
            ⟨true, "b", "a"⟩ :=
  ⟨(C10_amended_invalid_page_errors "doc" 1 ⟨100, 50⟩ [⟨5, ⟨0, 0, 10, 10⟩⟩]
      "b" "a" (List.cons_ne_nil _ _)).1
      ⟨⟨5, ⟨0, 0, 10, 10⟩⟩, List.mem_cons_self _ _, by decide⟩,
   (C10_amended_invalid_page_errors "doc" 1 ⟨100, 50⟩ [⟨0, ⟨0, 0, 10, 10⟩⟩]
      "b" "a" (List.cons_ne_nil _ _)).2
      (fun it hit => by
        rcases List.mem_cons.mp hit with rfl | h
        · exact ⟨by decide, by decide⟩
        · exact absurd h (List.not_mem_nil it))⟩
